import Mathlib

/-!
Verification of the docu_scan backend: a shallow embedding of the page
compositor (`app/services/pdf_service.py`), the Paperless upload client
(`app/services/paperless_service.py`), the settings store
(`app/services/settings_service.py`) and the two routers
(`app/routers/pdf.py`, `app/routers/paperless.py`).

Modelling conventions:
* Python `str` values that are scanned character by character (the base64
  payloads) are `List Char`; other strings are Lean `String`.
* Python `int` is `Int` where negative values are reachable, `Nat` for
  pixel dimensions and sizes.
* Python float arithmetic (the A4 placement geometry) is idealised as `ℚ`.
* External libraries (PIL decode/thumbnail/JPEG encode, reportlab byte
  serialisation, httpx) are oracles passed in as function parameters;
  the repository's own logic (control flow, arithmetic, string handling)
  is translated directly from the source.
-/

namespace DocuScan

/-! ## Pixels and images (the PIL fragment the compositor touches) -/

/-- One pixel; `a = 255` is fully opaque.  PIL modes without an alpha
channel are represented with `a = 255` and `mode` recording the PIL mode
string; for non-RGB modes `r g b` hold the RGB-converted colour. -/
structure RGBA where
  r : Nat
  g : Nat
  b : Nat
  a : Nat
deriving DecidableEq

/-- A decoded raster image: dimensions, PIL mode string, pixel grid. -/
structure Img where
  width : Nat
  height : Nat
  mode : String
  pix : Nat → Nat → RGBA

def whitePixel : RGBA := ⟨255, 255, 255, 255⟩

/-- Models `Image.new('RGB', img.size, (255, 255, 255))`
(pdf_service.py line 57). -/
def newRGBWhite (w h : Nat) : Img := ⟨w, h, "RGB", fun _ _ => whitePixel⟩

/-- One channel of PIL `paste` with an 8-bit mask:
`(mask * src + (255 - mask) * bg) / 255`. -/
def blendChannel (mask src bg : Nat) : Nat := (mask * src + (255 - mask) * bg) / 255

/-- Source pixel blended over a background pixel using the source alpha
as the mask; the result is opaque. -/
def blendPixel (src bg : RGBA) : RGBA :=
  ⟨blendChannel src.a src.r bg.r, blendChannel src.a src.g bg.g,
   blendChannel src.a src.b bg.b, 255⟩

/-- Models `background.paste(img, mask=img.split()[3])`
(pdf_service.py line 59): alpha-blend the RGBA image over the background. -/
def pasteWithAlphaMask (background img : Img) : Img :=
  ⟨background.width, background.height, "RGB",
   fun x y => blendPixel (img.pix x y) (background.pix x y)⟩

/-- Models `background.paste(img)` (pdf_service.py line 61): the source is
converted to the destination mode (its RGB colour is copied, any alpha
channel is dropped) and covers the background. -/
def pasteOpaque (background img : Img) : Img :=
  ⟨background.width, background.height, "RGB",
   fun x y => ⟨(img.pix x y).r, (img.pix x y).g, (img.pix x y).b, 255⟩⟩

/-- Lines 54-62 of pdf_service.py: convert to RGB if needed.  A non-RGB
image is pasted onto a white background of the same size, with the alpha
channel used as the paste mask exactly when the mode is `RGBA`. -/
def convertToRGB (img : Img) : Img :=
  if img.mode ≠ "RGB" then
    let background := newRGBWhite img.width img.height
    if img.mode = "RGBA" then pasteWithAlphaMask background img
    else pasteOpaque background img
  else img

/-- PIL modes that carry an alpha channel. -/
def modeHasAlpha (m : String) : Bool := m = "RGBA" || m = "LA" || m = "PA"

/-! ## A4 placement geometry (pdf_service.py lines 80-95) -/

/-- reportlab A4 width in points: `210 * 72 / 25.4`, idealised as a
rational. -/
def a4Width : ℚ := 75600 / 127

/-- reportlab A4 height in points: `297 * 72 / 25.4`. -/
def a4Height : ℚ := 106920 / 127

/-- The four values computed by lines 80-95 of pdf_service.py. -/
structure Placement where
  draw_width : ℚ
  draw_height : ℚ
  x_offset : ℚ
  y_offset : ℚ
deriving DecidableEq

/-- Lines 80-95 of pdf_service.py: scale to fit the A4 page preserving
aspect ratio, then center.  `w`, `h` are the (post-resize) image
dimensions. -/
def placeOnA4 (w h : ℚ) : Placement :=
  let img_aspect := w / h
  let page_aspect := a4Width / a4Height
  if img_aspect > page_aspect then
    ⟨a4Width, a4Width / img_aspect,
     (a4Width - a4Width) / 2, (a4Height - a4Width / img_aspect) / 2⟩
  else
    ⟨a4Height * img_aspect, a4Height,
     (a4Width - a4Height * img_aspect) / 2, (a4Height - a4Height) / 2⟩

/-! ## Data-URI stripping and base64 payloads -/

/-- Lines 46-48 of pdf_service.py: `if ',' in s: s = s.split(',', 1)[1]` —
drop everything up to and including the first comma, when present. -/
def stripDataUri (s : List Char) : List Char :=
  if ',' ∈ s then ((s.dropWhile (fun c => c != ',')).drop 1) else s

/-- Characters of the standard base64 alphabet (including padding). -/
def isBase64Char (c : Char) : Bool :=
  c.isAlphanum || c = '+' || c = '/' || c = '='

/-! ## Configuration (config.py) -/

/-- The fields of `Settings` in config.py that the modelled code reads. -/
structure Settings where
  pdf_compression_quality : Nat
  pdf_max_image_size : Nat
  paperless_enabled : Bool
  paperless_url : String
  paperless_token : String
  paperless_default_tags : String

/-- The defaults declared in config.py. -/
def defaultSettings : Settings :=
  ⟨98, 5000, true, "http://192.168.178.113:8000", "", "scanned,mobile"⟩

/-! ## External operations (PIL / reportlab oracles) -/

/-- A reportlab draw-image operation: the JPEG byte buffer handed to
`ImageReader` plus the placement rectangle of `c.drawImage`
(pdf_service.py lines 98-105). -/
structure DrawOp where
  data : List Nat
  x : ℚ
  y : ℚ
  w : ℚ
  h : ℚ

/-- The PDF document assembled by the reportlab canvas: metadata set on
lines 36-39 of pdf_service.py plus the finished pages. -/
structure PdfDoc where
  title : String
  author : String
  subject : String
  creator : String
  pages : List (List DrawOp)

/-- External library calls made by the compositor, passed in as oracles:
`b64ImageDecode` is `base64.b64decode` followed by `PIL.Image.open`
(either failure raises and is caught by the per-image handler),
`thumbnailImg` is `img.thumbnail((m, m), LANCZOS)`, `jpegEncode` is
`img.save(buf, 'JPEG', quality=q, optimize, progressive)`, and
`pdfSerialize` is the reportlab byte output of the finished canvas. -/
structure ExternalOps where
  b64ImageDecode : List Char → Option Img
  thumbnailImg : Img → Nat → Img
  jpegEncode : Img → Nat → List Nat
  pdfSerialize : PdfDoc → List Nat

/-! ## The per-image pipeline and the canvas loop (pdf_service.py 44-124) -/

/-- Lines 46-67 of pdf_service.py for one list element: strip the
data-URI marker, decode (any decode failure yields `none` and is skipped
by the caller), convert to RGB, downscale when a dimension exceeds the
configured maximum.  Returns the image that will be JPEG-encoded and
drawn. -/
def processImage (E : ExternalOps) (m : Nat) (s : List Char) : Option Img :=
  match E.b64ImageDecode (stripDataUri s) with
  | none => none
  | some img0 =>
      let img1 := convertToRGB img0
      let img2 := if img1.width > m || img1.height > m then E.thumbnailImg img1 m else img1
      some img2

/-- Lines 69-105 of pdf_service.py: JPEG-encode the processed image and
compute its placement on the A4 page. -/
def mkDrawOp (E : ExternalOps) (q : Nat) (img : Img) : DrawOp :=
  let p := placeOnA4 (img.width : ℚ) (img.height : ℚ)
  ⟨E.jpegEncode img q, p.x_offset, p.y_offset, p.draw_width, p.draw_height⟩

/-- reportlab canvas state: finished pages plus the drawing code of the
page currently in progress (`self._code`). -/
structure Canvas where
  pages : List (List DrawOp)
  current : List DrawOp

/-- reportlab `canvas.showPage()`: close the current page (even if
empty) and start a fresh one. -/
def showPage (c : Canvas) : Canvas := ⟨c.pages ++ [c.current], []⟩

/-- reportlab `canvas.drawImage(...)`: append a draw operation to the
page in progress. -/
def drawImage (c : Canvas) (op : DrawOp) : Canvas := ⟨c.pages, c.current ++ [op]⟩

/-- reportlab `canvas.save()`: an implicit `showPage` runs exactly when
the page in progress has content; the document then holds the finished
pages. -/
def canvasSave (c : Canvas) : List (List DrawOp) :=
  if c.current.isEmpty then c.pages else c.pages ++ [c.current]

/-- The `for idx, img_base64 in enumerate(images_base64)` loop of
pdf_service.py lines 44-117: on success draw the image and, when
`idx < len(images_base64) - 1`, start a new page; on any per-image
failure skip the element and continue. -/
def composeLoop (E : ExternalOps) (q m total : Nat) :
    Nat → List (List Char) → Canvas → Canvas
  | _, [], c => c
  | idx, s :: rest, c =>
      match processImage E m s with
      | none => composeLoop E q m total (idx + 1) rest c
      | some img =>
          let c1 := drawImage c (mkDrawOp E q img)
          let c2 := if (idx : Int) < (total : Int) - 1 then showPage c1 else c1
          composeLoop E q m total (idx + 1) rest c2

/-- `generate_pdf_from_images` (pdf_service.py lines 12-124): resolve the
quality default, run the per-image loop on a fresh canvas, save, and
return the document with its fixed metadata. -/
def generate_pdf_from_images (E : ExternalOps) (cfg : Settings)
    (images_base64 : List (List Char)) (title : String)
    (compression_quality : Option Nat) : PdfDoc :=
  let q := compression_quality.getD cfg.pdf_compression_quality
  let cEnd := composeLoop E q cfg.pdf_max_image_size images_base64.length 0 images_base64 ⟨[], []⟩
  ⟨title, "Document Scanner", "Scanned Document", "Document Scanner v1.0", canvasSave cEnd⟩

/-- The page produced for one input element, when it decodes. -/
def pageFor (E : ExternalOps) (q m : Nat) (s : List Char) : Option (List DrawOp) :=
  (processImage E m s).map (fun img => [mkDrawOp E q img])

/-! ## Size estimator (pdf_service.py lines 132-154) -/

/-- `estimate_pdf_size` translated line by line. -/
def estimate_pdf_size (num_pages : Int) (compression_quality : Int) : Int :=
  let bytes_per_page : Int :=
    if compression_quality ≥ 90 then 400000
    else if compression_quality ≥ 75 then 250000
    else 150000
  let overhead : Int := 10000
  num_pages * bytes_per_page + overhead

/-- The spec's wording of the step function: ≥ 90 → 400KB, 75 ≤ q < 90 →
250KB, otherwise 150KB. -/
def bytes_per_page_spec (q : Int) : Int :=
  if 90 ≤ q then 400000 else if 75 ≤ q ∧ q < 90 then 250000 else 150000

/-! ## JSON values and Python helpers -/

/-- JSON values, as handled by `response.json()` / `json.load`. -/
inductive JsonVal where
  | null : JsonVal
  | boolean : Bool → JsonVal
  | num : Int → JsonVal
  | str : String → JsonVal
  | arr : List JsonVal → JsonVal
  | obj : List (String × JsonVal) → JsonVal

/-- Python `a or b` for an optional string `a`: `None` and the empty
string are falsy and fall back to `b`. -/
def pyOr (a : Option String) (b : String) : String :=
  match a with
  | none => b
  | some s => if s = "" then b else s

/-- Python truthiness of a JSON value. -/
def pyTruthy : JsonVal → Bool
  | .null => false
  | .boolean b => b
  | .num n => n != 0
  | .str s => s != ""
  | .arr l => !l.isEmpty
  | .obj l => !l.isEmpty

/-! ## Python exceptions reaching the routers -/

/-- The exceptions the modelled code raises: `fastapi.HTTPException`,
`ValueError`, and `httpx.HTTPStatusError` from `raise_for_status()`. -/
inductive PyErr where
  | httpExc : Nat → String → PyErr
  | valueError : String → PyErr
  | httpStatusError : Nat → PyErr

/-- Python `str(e)` for the exceptions above (starlette's HTTPException
prints as `"{status_code}: {detail}"`). -/
def pyStr : PyErr → String
  | .httpExc code detail => toString code ++ ": " ++ detail
  | .valueError m => m
  | .httpStatusError code => "HTTP status error " ++ toString code

/-! ## The Paperless HTTP client (paperless_service.py) -/

/-- One HTTP request issued through the `httpx.AsyncClient`: method, URL,
the token placed in the `Authorization` header, and the JSON/form
payload. -/
structure NetCall where
  method : String
  url : String
  authToken : String
  payload : JsonVal

/-- An HTTP response: status code and decoded JSON body. -/
structure NetResp where
  status : Nat
  jsonBody : JsonVal

/-- The network oracle standing for the live Paperless server. -/
def Net : Type := NetCall → NetResp

/-- httpx `response.raise_for_status()` succeeds exactly on a 2xx
status. -/
def is2xx (n : Nat) : Bool := decide (200 ≤ n ∧ n < 300)

/-- `_get_or_create_tag_id` (paperless_service.py lines 103-131): search
for the tag by case-insensitive exact name, create it when absent; the
whole body is wrapped in `try/except` returning `None` on any failure.
Returns the id (if any) and the requests issued. -/
def _get_or_create_tag_id (net : Net) (urlQuote : String → String)
    (tag_name paperless_url paperless_token : String) : Option Int × List NetCall :=
  let req1 : NetCall :=
    ⟨"GET", paperless_url ++ "/api/tags/?name__iexact=" ++ urlQuote tag_name,
     paperless_token, JsonVal.null⟩
  let r1 := net req1
  if is2xx r1.status then
    match r1.jsonBody with
    | JsonVal.obj fields =>
        let results := (fields.lookup "results").getD (JsonVal.arr [])
        if pyTruthy results then
          match results with
          | JsonVal.arr (first :: _) =>
              (match first with
               | JsonVal.obj ffields =>
                   (match ffields.lookup "id" with
                    | some (JsonVal.num i) => (some i, [req1])
                    | _ => (none, [req1]))
               | _ => (none, [req1]))
          | _ => (none, [req1])
        else
          let req2 : NetCall :=
            ⟨"POST", paperless_url ++ "/api/tags/", paperless_token,
             JsonVal.obj [("name", JsonVal.str tag_name)]⟩
          let r2 := net req2
          if is2xx r2.status then
            match r2.jsonBody with
            | JsonVal.obj cfields =>
                (match cfields.lookup "id" with
                 | some (JsonVal.num i) => (some i, [req1, req2])
                 | _ => (none, [req1, req2]))
            | _ => (none, [req1, req2])
          else (none, [req1, req2])
    | _ => (none, [req1])
  else (none, [req1])

/-- `_get_correspondent_id` (paperless_service.py lines 134-148):
`results[0]['id'] if results else None`, `None` on any failure. -/
def _get_correspondent_id (net : Net) (urlQuote : String → String)
    (correspondent_name paperless_url paperless_token : String) :
    Option Int × List NetCall :=
  let req : NetCall :=
    ⟨"GET", paperless_url ++ "/api/correspondents/?name__iexact=" ++ urlQuote correspondent_name,
     paperless_token, JsonVal.null⟩
  let r := net req
  if is2xx r.status then
    match r.jsonBody with
    | JsonVal.obj fields =>
        let results := (fields.lookup "results").getD (JsonVal.arr [])
        if pyTruthy results then
          match results with
          | JsonVal.arr (first :: _) =>
              (match first with
               | JsonVal.obj ffields =>
                   (match ffields.lookup "id" with
                    | some (JsonVal.num i) => (some i, [req])
                    | _ => (none, [req]))
               | _ => (none, [req]))
          | _ => (none, [req])
        else (none, [req])
    | _ => (none, [req])
  else (none, [req])

/-- `_get_document_type_id` (paperless_service.py lines 151-165): same
shape as the correspondent lookup against `/api/document_types/`. -/
def _get_document_type_id (net : Net) (urlQuote : String → String)
    (document_type_name paperless_url paperless_token : String) :
    Option Int × List NetCall :=
  let req : NetCall :=
    ⟨"GET", paperless_url ++ "/api/document_types/?name__iexact=" ++ urlQuote document_type_name,
     paperless_token, JsonVal.null⟩
  let r := net req
  if is2xx r.status then
    match r.jsonBody with
    | JsonVal.obj fields =>
        let results := (fields.lookup "results").getD (JsonVal.arr [])
        if pyTruthy results then
          match results with
          | JsonVal.arr (first :: _) =>
              (match first with
               | JsonVal.obj ffields =>
                   (match ffields.lookup "id" with
                    | some (JsonVal.num i) => (some i, [req])
                    | _ => (none, [req]))
               | _ => (none, [req]))
          | _ => (none, [req])
        else (none, [req])
    | _ => (none, [req])
  else (none, [req])

/-- `','.join(str(tid) for tid in tag_ids)`. -/
def joinIds (ids : List Int) : String :=
  String.intercalate "," (ids.map toString)

/-- The final multipart POST of `upload_to_paperless` with the form data
assembled on lines 62-91 of paperless_service.py; with no tags,
correspondent or document type resolved, the form holds only the
document and the title. -/
def basicPostCall (url token title : String) (pdf_bytes : List Nat) : NetCall :=
  ⟨"POST", url ++ "/api/documents/post_document/", token,
   JsonVal.obj [("document", JsonVal.arr (pdf_bytes.map (fun b => JsonVal.num (Int.ofNat b)))),
                ("title", JsonVal.str title)]⟩

/-- `upload_to_paperless` (paperless_service.py lines 7-100): resolve
URL/token with `or`-fallback, guard missing configuration with
`ValueError` before any request, resolve tag/correspondent/document-type
ids, POST the document, and normalise a bare-string task id to
`{"id": task_id}`.  Returns the outcome together with every request
issued. -/
def upload_to_paperless (net : Net) (urlQuote : String → String) (cfg : Settings)
    (pdf_bytes : List Nat) (title : String)
    (tags : Option (List String)) (correspondent : Option String)
    (document_type : Option String)
    (paperless_url : Option String) (paperless_token : Option String) :
    Except PyErr JsonVal × List NetCall :=
  let url := pyOr paperless_url cfg.paperless_url
  let token := pyOr paperless_token cfg.paperless_token
  if url = "" then (Except.error (PyErr.valueError "Paperless URL is not configured"), [])
  else if token = "" then
    (Except.error (PyErr.valueError "Paperless API token is not configured"), [])
  else
    let tagStep : List Int × List NetCall :=
      match tags with
      | none => ([], [])
      | some ts =>
          ts.foldl (fun acc tag_name =>
            let step := _get_or_create_tag_id net urlQuote tag_name url token
            ((match step.1 with
              | some i => if i != 0 then acc.1 ++ [i] else acc.1
              | none => acc.1), acc.2 ++ step.2)) ([], [])
    let corrStep : Option Int × List NetCall :=
      match correspondent with
      | some c => if c = "" then (none, []) else _get_correspondent_id net urlQuote c url token
      | none => (none, [])
    let dtStep : Option Int × List NetCall :=
      match document_type with
      | some d => if d = "" then (none, []) else _get_document_type_id net urlQuote d url token
      | none => (none, [])
    let data0 : List (String × JsonVal) := [("title", JsonVal.str title)]
    let data1 := if tagStep.1.isEmpty then data0
                 else data0 ++ [("tags", JsonVal.str (joinIds tagStep.1))]
    let data2 := match corrStep.1 with
      | some i => if i != 0 then data1 ++ [("correspondent", JsonVal.str (toString i))] else data1
      | none => data1
    let data3 := match dtStep.1 with
      | some i => if i != 0 then data2 ++ [("document_type", JsonVal.str (toString i))] else data2
      | none => data2
    let postReq : NetCall :=
      ⟨"POST", url ++ "/api/documents/post_document/", token,
       JsonVal.obj (("document", JsonVal.arr (pdf_bytes.map (fun b => JsonVal.num (Int.ofNat b)))) :: data3)⟩
    let calls := tagStep.2 ++ corrStep.2 ++ dtStep.2 ++ [postReq]
    let resp := net postReq
    if is2xx resp.status then
      match resp.jsonBody with
      | JsonVal.str t => (Except.ok (JsonVal.obj [("id", JsonVal.str t)]), calls)
      | v => (Except.ok v, calls)
    else (Except.error (PyErr.httpStatusError resp.status), calls)

/-! ## Routers (pdf.py, paperless.py) -/

/-- An HTTP response produced by a route handler. -/
structure HttpResp where
  status : Nat
  body : JsonVal

/-- The `try` body of the `/api/pdf/generate` route (pdf.py lines 38-61):
raising `HTTPException(400)` on an empty image list, otherwise streaming
the generated PDF bytes. -/
def generate_pdf_body (E : ExternalOps) (cfg : Settings) (images : List (List Char))
    (title : String) (compression_quality : Option Nat) : Except PyErr HttpResp :=
  if images.isEmpty then Except.error (PyErr.httpExc 400 "No images provided")
  else
    let pdf_bytes := E.pdfSerialize (generate_pdf_from_images E cfg images title compression_quality)
    Except.ok ⟨200, JsonVal.obj [("media_type", JsonVal.str "application/pdf"),
                                 ("content_length", JsonVal.num (pdf_bytes.length : Int))]⟩

/-- The `/api/pdf/generate` route (pdf.py lines 27-63): every exception
escaping the `try` body — including the 400 `HTTPException` itself — is
caught by `except Exception` and re-raised as a 500. -/
def generate_pdf_route (E : ExternalOps) (cfg : Settings) (images : List (List Char))
    (title : String) (compression_quality : Option Nat) : HttpResp :=
  match generate_pdf_body E cfg images title compression_quality with
  | Except.ok r => r
  | Except.error e => ⟨500, JsonVal.str ("PDF generation failed: " ++ pyStr e)⟩

/-- The `try` body of the `/api/paperless/upload` route (paperless.py
lines 40-68): empty-list guard, PDF generation, then the upload call. -/
def upload_document_body (E : ExternalOps) (net : Net) (urlQuote : String → String)
    (cfg : Settings) (images : List (List Char)) (title : String)
    (tags : Option (List String)) (correspondent document_type : Option String)
    (compression_quality : Option Nat)
    (paperless_url paperless_token : Option String) :
    Except PyErr JsonVal × List NetCall :=
  if images.isEmpty then (Except.error (PyErr.httpExc 400 "No images provided"), [])
  else
    let pdf_bytes := E.pdfSerialize (generate_pdf_from_images E cfg images title compression_quality)
    upload_to_paperless net urlQuote cfg pdf_bytes title tags correspondent document_type
      paperless_url paperless_token

/-- The `/api/paperless/upload` route (paperless.py lines 29-75):
`except ValueError` maps to 400; every other exception — including the
400 `HTTPException` raised for an empty list — maps to 500; on success
the response echoes `result.get('id')` (a `result` that is not a dict
makes `.get` raise, landing in the 500 handler). -/
def upload_document (E : ExternalOps) (net : Net) (urlQuote : String → String)
    (cfg : Settings) (images : List (List Char)) (title : String)
    (tags : Option (List String)) (correspondent document_type : Option String)
    (compression_quality : Option Nat)
    (paperless_url paperless_token : Option String) : HttpResp × List NetCall :=
  let body := upload_document_body E net urlQuote cfg images title tags correspondent
    document_type compression_quality paperless_url paperless_token
  match body.1 with
  | Except.ok v =>
      (match v with
       | JsonVal.obj fields =>
           (⟨200, JsonVal.obj [("success", JsonVal.boolean true),
              ("message", JsonVal.str "Document uploaded successfully to Paperless-ngx"),
              ("document_id", (fields.lookup "id").getD JsonVal.null)]⟩, body.2)
       | _ => (⟨500, JsonVal.str "Upload failed: AttributeError"⟩, body.2))
  | Except.error (PyErr.valueError m) => (⟨400, JsonVal.str m⟩, body.2)
  | Except.error e => (⟨500, JsonVal.str ("Upload failed: " ++ pyStr e)⟩, body.2)

/-! ## Settings store (settings_service.py) -/

/-- The pydantic `UserSettings` model (settings_service.py lines 11-16). -/
structure UserSettings where
  paperlessUrl : String
  paperlessToken : String
  paperlessDefaultTags : String
  defaultEnhancement : String
deriving DecidableEq

/-- The field defaults of `UserSettings`. -/
def defaultUserSettings : UserSettings := ⟨"", "", "docu_scan", "auto"⟩

/-- `settings.model_dump()`: the four fields as a JSON object. -/
def model_dump (s : UserSettings) : List (String × JsonVal) :=
  [("paperlessUrl", JsonVal.str s.paperlessUrl),
   ("paperlessToken", JsonVal.str s.paperlessToken),
   ("paperlessDefaultTags", JsonVal.str s.paperlessDefaultTags),
   ("defaultEnhancement", JsonVal.str s.defaultEnhancement)]

/-- One pydantic string field of `UserSettings(**data)`: a missing key
takes the default, a string value is accepted, any other value raises a
validation error. -/
def getStrField (data : List (String × JsonVal)) (key dflt : String) : Option String :=
  match data.lookup key with
  | none => some dflt
  | some (JsonVal.str v) => some v
  | some _ => none

/-- `UserSettings(**data)`: validate the four fields, ignoring unknown
keys (pydantic's default `extra` behaviour). -/
def userSettingsOfJson (data : List (String × JsonVal)) : Option UserSettings :=
  match getStrField data "paperlessUrl" "", getStrField data "paperlessToken" "",
        getStrField data "paperlessDefaultTags" "docu_scan",
        getStrField data "defaultEnhancement" "auto" with
  | some a, some b, some c, some d => some ⟨a, b, c, d⟩
  | _, _, _, _ => none

/-- The state of the settings file.  `json.dump`/`json.load` (external
stdlib) are modelled at the level of the JSON object they write and
parse back; `malformed` stands for a file whose text fails to parse. -/
inductive SettingsFile where
  | missing : SettingsFile
  | malformed : SettingsFile
  | stored : List (String × JsonVal) → SettingsFile

/-- `load_settings` (settings_service.py lines 25-44): a missing file and
a `JSONDecodeError` both yield the defaults; a parsed object goes through
pydantic validation (whose failure, uncaught in the source, is `none`). -/
def load_settings : SettingsFile → Option UserSettings
  | SettingsFile.missing => some defaultUserSettings
  | SettingsFile.malformed => some defaultUserSettings
  | SettingsFile.stored data => userSettingsOfJson data

/-- `save_settings` (settings_service.py lines 47-65) with the write
succeeding (the claim assumes no I/O failure): the file now stores
`model_dump` of the settings, and `True` is returned. -/
def save_settings (s : UserSettings) : SettingsFile × Bool :=
  (SettingsFile.stored (model_dump s), true)

/-! ## Concrete fixtures used to instantiate the theorems -/

/-- A concrete 2×3 RGB test image. -/
def imgA : Img := ⟨2, 3, "RGB", fun _ _ => ⟨1, 2, 3, 255⟩⟩

/-- Concrete external operations: the one-character payload `A` decodes
to `imgA`, anything else fails to decode. -/
def extOps₀ : ExternalOps :=
  ⟨fun s => if s = ['A'] then some imgA else none,
   fun img _ => img,
   fun _ q => [q],
   fun _ => []⟩

/-- A 1×1 image in PIL mode `LA` (greyscale with alpha): black and fully
transparent. -/
def laTestImg : Img := ⟨1, 1, "LA", fun _ _ => ⟨0, 0, 0, 0⟩⟩

/-- A 1×1 half-transparent RGBA test image. -/
def rgbaTestImg : Img := ⟨1, 1, "RGBA", fun _ _ => ⟨10, 20, 30, 128⟩⟩

/-- A Paperless server whose every response is a structured object with
no `id` field. -/
def netTaskObj : Net := fun _ => ⟨200, JsonVal.obj [("task", JsonVal.str "abc")]⟩

/-- A Paperless server whose every response is the bare task-id string. -/
def netTaskStr : Net := fun _ => ⟨200, JsonVal.str "abc"⟩

/-- Configuration with Paperless URL and token both set. -/
def cfgPaperless : Settings := ⟨98, 5000, true, "http://paperless", "tok", "scanned,mobile"⟩

/-- Configuration with a Paperless URL but an empty token — the shipped
default of config.py. -/
def cfgNoToken : Settings := ⟨98, 5000, true, "http://paperless", "", "scanned,mobile"⟩

end DocuScan

namespace DocuScan

/-! ## Helper lemmas -/

/-- A `filterMap` over a list on which `f` never fails keeps every
element, in order. -/
theorem filterMap_total_map_some {α β : Type _} (f : α → Option β) (l : List α)
    (h : ∀ s ∈ l, (f s).isSome = true) :
    (l.filterMap f).map some = l.map f := by
  induction l with
  | nil => rfl
  | cons a t ih =>
      obtain ⟨b, hb⟩ := Option.isSome_iff_exists.mp (h a (List.mem_cons_self a t))
      simp only [List.filterMap_cons, hb, List.map_cons]
      exact congrArg (some b :: ·) (ih fun s hs => h s (List.mem_cons_of_mem a hs))

/-- Length form of `filterMap_total_map_some`. -/
theorem filterMap_total_length {α β : Type _} (f : α → Option β) (l : List α)
    (h : ∀ s ∈ l, (f s).isSome = true) :
    (l.filterMap f).length = l.length := by
  have := congrArg List.length (filterMap_total_map_some f l h)
  simpa using this

/-- The compositor loop, started on an empty in-progress page, appends
one finished page per successfully processed element, in input order;
the final implicit `showPage` of `canvas.save()` flushes the last drawn
page. -/
theorem composeLoop_pages (E : ExternalOps) (q m : Nat) (total : Nat) :
    ∀ (l : List (List Char)) (idx : Nat) (ps : List (List DrawOp)),
      idx + l.length = total →
      canvasSave (composeLoop E q m total idx l ⟨ps, []⟩) =
        ps ++ l.filterMap (pageFor E q m) := by
  intro l
  induction l with
  | nil => intro idx ps _; simp [composeLoop, canvasSave]
  | cons s rest ih =>
      intro idx ps h
      simp only [List.length_cons] at h
      simp only [composeLoop]
      cases hp : processImage E m s with
      | none =>
          rw [ih (idx + 1) ps (by omega)]
          simp [pageFor, hp, List.filterMap_cons]
      | some img =>
          dsimp only
          by_cases hidx : (idx : Int) < (total : Int) - 1
          · rw [if_pos hidx]
            have hdraw : showPage (drawImage ⟨ps, []⟩ (mkDrawOp E q img)) =
                (⟨ps ++ [[mkDrawOp E q img]], []⟩ : Canvas) := by
              simp [drawImage, showPage]
            rw [hdraw, ih (idx + 1) (ps ++ [[mkDrawOp E q img]]) (by omega)]
            simp [pageFor, hp, List.filterMap_cons]
          · rw [if_neg hidx]
            have hrest : rest = [] := by
              have : rest.length = 0 := by omega
              exact List.length_eq_zero.mp this
            subst hrest
            simp [composeLoop, canvasSave, drawImage, pageFor, hp, List.filterMap_cons]

/-- The pages of the generated PDF are exactly the successfully
processed input images, in order. -/
theorem generate_pages (E : ExternalOps) (cfg : Settings) (images : List (List Char))
    (title : String) (cq : Option Nat) :
    (generate_pdf_from_images E cfg images title cq).pages =
      images.filterMap (pageFor E (cq.getD cfg.pdf_compression_quality) cfg.pdf_max_image_size) := by
  unfold generate_pdf_from_images
  simpa using composeLoop_pages E (cq.getD cfg.pdf_compression_quality)
    cfg.pdf_max_image_size images.length images 0 [] (by simp)

/-! ## Claim theorems -/

/-- Stripping is the identity on a payload without a comma. -/
theorem stripDataUri_no_comma (s : List Char) (h : ',' ∉ s) : stripDataUri s = s := by
  simp [stripDataUri, h]

/-- Stripping a string whose first comma terminates the marker returns
everything after that comma. -/
theorem stripDataUri_after_comma (p₀ s : List Char) (hp : ',' ∉ p₀) :
    stripDataUri (p₀ ++ ',' :: s) = s := by
  unfold stripDataUri
  rw [if_pos (by simp)]
  have hdrop : ∀ t : List Char, ',' ∉ t →
      (t ++ ',' :: s).dropWhile (fun c => c != ',') = ',' :: s := by
    intro t
    induction t with
    | nil => intro _; simp [List.dropWhile_cons]
    | cons c u ih =>
        intro ht
        have hc : (c != ',') = true := by
          simp only [bne_iff_ne, ne_eq]
          exact fun hcc => ht (hcc ▸ List.mem_cons_self c u)
        simp only [List.cons_append, List.dropWhile_cons, hc, if_true]
        exact ih fun hm => ht (List.mem_cons_of_mem c hm)
  rw [hdrop p₀ hp]
  rfl

/-- `pageFor` succeeds exactly when the image pipeline succeeds. -/
theorem pageFor_isSome (E : ExternalOps) (q m : Nat) (s : List Char)
    (h : (processImage E m s).isSome = true) : (pageFor E q m s).isSome = true := by
  unfold pageFor
  cases hproc : processImage E m s with
  | none => rw [hproc] at h; exact absurd h (by simp)
  | some i => simp

/-- C3: for every page count and quality, `estimate_pdf_size` equals the
page count times the spec's three-tier bytes-per-page function plus the
fixed 10000-byte overhead; in particular `estimate_pdf_size 3 90 =
1210000` and `estimate_pdf_size 3 70 = 460000`. -/
theorem c3_estimate_formula :
    (∀ p q : Int, estimate_pdf_size p q = p * bytes_per_page_spec q + 10000) ∧
    estimate_pdf_size 3 90 = 1210000 ∧ estimate_pdf_size 3 70 = 460000 := by
  refine ⟨fun p q => ?_, by decide, by decide⟩
  simp only [estimate_pdf_size, bytes_per_page_spec]
  split_ifs <;> omega

/-- C9: saving a `UserSettings` value and loading it back (no
intervening write; I/O failures are outside the model) returns exactly
the saved field values, and the save reports success. -/
theorem c9_settings_round_trip (s : UserSettings) :
    load_settings (save_settings s).1 = some s ∧ (save_settings s).2 = true :=
  ⟨rfl, rfl⟩

/-- C10: a request with an empty image list makes both the PDF-generation
route and the Paperless upload route answer HTTP 500, because the 400
`HTTPException` is raised inside the `try` block and re-wrapped by the
catch-all handler. -/
theorem c10_empty_images_give_500 (E : ExternalOps) (net : Net) (uq : String → String)
    (cfg : Settings) (title : String) (tags : Option (List String))
    (corr dt : Option String) (cq : Option Nat) (purl ptok : Option String) :
    (generate_pdf_route E cfg [] title cq).status = 500 ∧
    (upload_document E net uq cfg [] title tags corr dt cq purl ptok).1.status = 500 :=
  ⟨rfl, rfl⟩

/-- C1: when every element of the input list decodes successfully, the
generated PDF has exactly one page per input image, and page `i` is the
page composed from image `i`. -/
theorem c1_page_count_and_order (E : ExternalOps) (cfg : Settings) (title : String)
    (cq : Option Nat) (images : List (List Char))
    (h : ∀ s ∈ images, (processImage E cfg.pdf_max_image_size s).isSome = true) :
    (generate_pdf_from_images E cfg images title cq).pages.length = images.length ∧
    (generate_pdf_from_images E cfg images title cq).pages.map some =
      images.map (pageFor E (cq.getD cfg.pdf_compression_quality) cfg.pdf_max_image_size) := by
  have hpf : ∀ s ∈ images,
      (pageFor E (cq.getD cfg.pdf_compression_quality) cfg.pdf_max_image_size s).isSome = true :=
    fun s hs => pageFor_isSome E _ _ s (h s hs)
  rw [generate_pages]
  exact ⟨filterMap_total_length _ _ hpf, filterMap_total_map_some _ _ hpf⟩

/-- C1 witness: two copies of the decodable payload `A` give a two-page
PDF. -/
theorem c1_witness :
    (generate_pdf_from_images extOps₀ defaultSettings [['A'], ['A']] "Scanned Document" none).pages.length = 2 := by
  have h := c1_page_count_and_order extOps₀ defaultSettings "Scanned Document" none
    [['A'], ['A']] (by
      intro s hs
      simp only [List.mem_cons, List.not_mem_nil, or_false] at hs
      rcases hs with rfl | rfl <;> decide)
  exact h.1

/-- C2: when exactly one image, at a middle position, fails to decode,
the compositor skips it: the PDF has N−1 pages and the remaining images
appear in their original relative order. -/
theorem c2_middle_decode_failure (E : ExternalOps) (cfg : Settings) (title : String)
    (cq : Option Nat) (pre post : List (List Char)) (bad : List Char)
    (hpre : ∀ s ∈ pre, (processImage E cfg.pdf_max_image_size s).isSome = true)
    (hpost : ∀ s ∈ post, (processImage E cfg.pdf_max_image_size s).isSome = true)
    (hbad : processImage E cfg.pdf_max_image_size bad = none)
    (_hpre_ne : pre ≠ []) (_hpost_ne : post ≠ []) :
    (generate_pdf_from_images E cfg (pre ++ bad :: post) title cq).pages.length + 1 =
      (pre ++ bad :: post).length ∧
    (generate_pdf_from_images E cfg (pre ++ bad :: post) title cq).pages.map some =
      (pre ++ post).map (pageFor E (cq.getD cfg.pdf_compression_quality) cfg.pdf_max_image_size) := by
  have hpfpre : ∀ s ∈ pre,
      (pageFor E (cq.getD cfg.pdf_compression_quality) cfg.pdf_max_image_size s).isSome = true :=
    fun s hs => pageFor_isSome E _ _ s (hpre s hs)
  have hpfpost : ∀ s ∈ post,
      (pageFor E (cq.getD cfg.pdf_compression_quality) cfg.pdf_max_image_size s).isSome = true :=
    fun s hs => pageFor_isSome E _ _ s (hpost s hs)
  have hpfbad : pageFor E (cq.getD cfg.pdf_compression_quality) cfg.pdf_max_image_size bad = none := by
    simp [pageFor, hbad]
  rw [generate_pages, List.filterMap_append, List.filterMap_cons, hpfbad]
  constructor
  · rw [List.length_append, filterMap_total_length _ _ hpfpre, filterMap_total_length _ _ hpfpost]
    simp only [List.length_append, List.length_cons]
    omega
  · rw [List.map_append, List.map_append,
      filterMap_total_map_some _ _ hpfpre, filterMap_total_map_some _ _ hpfpost]

/-- C2 witness: with the undecodable payload `B` between two copies of
`A`, the PDF has two pages. -/
theorem c2_witness :
    (generate_pdf_from_images extOps₀ defaultSettings [['A'], ['B'], ['A']] "Scanned Document" none).pages.length + 1 = 3 := by
  have h := c2_middle_decode_failure extOps₀ defaultSettings "Scanned Document" none
    [['A']] [['A']] ['B']
    (by intro s hs; simp only [List.mem_singleton] at hs; subst hs; decide)
    (by intro s hs; simp only [List.mem_singleton] at hs; subst hs; decide)
    rfl (by decide) (by decide)
  exact h.1

/-- C6: a payload of base64-alphabet characters preceded by a data-URI
marker (text with no comma, terminated by a comma) composes exactly like
the bare payload: the marker is stripped up to and including its comma,
and a comma-free payload is passed to the decoder unchanged. -/
theorem c6_data_uri_marker_equivalence (E : ExternalOps) (cfg : Settings) (title : String)
    (cq : Option Nat) (p₀ s : List Char)
    (hp : ',' ∉ p₀) (hs : ∀ c ∈ s, isBase64Char c = true) :
    stripDataUri ((p₀ ++ [',']) ++ s) = s ∧ stripDataUri s = s ∧
    generate_pdf_from_images E cfg [(p₀ ++ [',']) ++ s] title cq =
      generate_pdf_from_images E cfg [s] title cq := by
  have hstrip1 : stripDataUri ((p₀ ++ [',']) ++ s) = s := by
    have heq : (p₀ ++ [',']) ++ s = p₀ ++ ',' :: s := by simp
    rw [heq]
    exact stripDataUri_after_comma p₀ s hp
  have hs' : ',' ∉ s := fun hmem => absurd (hs _ hmem) (by decide)
  have hstrip2 : stripDataUri s = s := stripDataUri_no_comma s hs'
  have hproc : ∀ m, processImage E m ((p₀ ++ [',']) ++ s) = processImage E m s := by
    intro m
    unfold processImage
    rw [hstrip1, hstrip2]
  refine ⟨hstrip1, hstrip2, ?_⟩
  unfold generate_pdf_from_images
  simp only [List.length_cons, List.length_nil, composeLoop]
  rw [hproc]

/-- C6 witness: a concrete `data:image/png;base64,` marker in front of
the decodable payload `A` composes identically to the bare payload. -/
theorem c6_witness :
    generate_pdf_from_images extOps₀ defaultSettings
        [("data:image/png;base64".toList ++ [',']) ++ ['A']] "Scanned Document" none =
      generate_pdf_from_images extOps₀ defaultSettings [['A']] "Scanned Document" none := by
  have h := c6_data_uri_marker_equivalence extOps₀ defaultSettings "Scanned Document" none
    "data:image/png;base64".toList ['A'] (by decide) (by decide)
  exact h.2.2

/-- C4 counterexample: the claim as stated — the alpha channel is used as
the blend mask whenever one is present — fails on a PIL `LA` image: a
fully transparent black `LA` pixel is pasted opaque (black), not blended
to white. -/
theorem c4_counterexample :
    ¬ (∀ img : Img, img.mode ≠ "RGB" →
         (convertToRGB img).width = img.width ∧
         (convertToRGB img).height = img.height ∧
         (convertToRGB img).mode = "RGB" ∧
         (modeHasAlpha img.mode = true →
           ∀ x y, (convertToRGB img).pix x y = blendPixel (img.pix x y) whitePixel)) := by
  intro hclaim
  have h := (hclaim laTestImg (by decide)).2.2.2 (by decide) 0 0
  exact absurd h (by decide)

/-- C4 (amended): every non-RGB image is composited onto an opaque white
background of the same dimensions into an alpha-free RGB image, with the
alpha channel used as the blend mask exactly when the mode is `RGBA`;
any other non-RGB mode (including the alpha-carrying `LA`) is pasted
opaque. -/
theorem c4_white_background_no_alpha (img : Img) (h : img.mode ≠ "RGB") :
    (convertToRGB img).width = img.width ∧
    (convertToRGB img).height = img.height ∧
    (convertToRGB img).mode = "RGB" ∧
    (∀ x y, ((convertToRGB img).pix x y).a = 255) ∧
    (img.mode = "RGBA" →
      ∀ x y, (convertToRGB img).pix x y = blendPixel (img.pix x y) whitePixel) ∧
    (img.mode ≠ "RGBA" →
      ∀ x y, (convertToRGB img).pix x y =
        ⟨(img.pix x y).r, (img.pix x y).g, (img.pix x y).b, 255⟩) := by
  unfold convertToRGB
  rw [if_pos h]
  by_cases hA : img.mode = "RGBA"
  · rw [if_pos hA]
    exact ⟨rfl, rfl, rfl, fun _ _ => rfl, fun _ _ _ => rfl, fun hn => absurd hA hn⟩
  · rw [if_neg hA]
    exact ⟨rfl, rfl, rfl, fun _ _ => rfl, fun hA2 => absurd hA2 hA, fun _ _ _ => rfl⟩

/-- C4 witness: the half-transparent RGBA test pixel is blended over
white and the result is RGB. -/
theorem c4_witness :
    (convertToRGB rgbaTestImg).mode = "RGB" ∧
    (convertToRGB rgbaTestImg).pix 0 0 = blendPixel (rgbaTestImg.pix 0 0) whitePixel := by
  have h := c4_white_background_no_alpha rgbaTestImg (by decide)
  exact ⟨h.2.2.1, h.2.2.2.2.1 rfl 0 0⟩

/-- C5: the A4 placement fits the image entirely on the page, preserves
the aspect ratio, centers on both axes, and picks fit-to-width exactly
when the image aspect exceeds the page aspect. -/
theorem c5_fit_and_center (w h : Nat) (hw : 0 < w) (hh : 0 < h) :
    ((w : ℚ) / (h : ℚ) > a4Width / a4Height →
       (placeOnA4 (w : ℚ) (h : ℚ)).draw_width = a4Width ∧
       (placeOnA4 (w : ℚ) (h : ℚ)).draw_height = a4Width * (h : ℚ) / (w : ℚ)) ∧
    (¬ ((w : ℚ) / (h : ℚ) > a4Width / a4Height) →
       (placeOnA4 (w : ℚ) (h : ℚ)).draw_height = a4Height ∧
       (placeOnA4 (w : ℚ) (h : ℚ)).draw_width = a4Height * (w : ℚ) / (h : ℚ)) ∧
    (placeOnA4 (w : ℚ) (h : ℚ)).draw_width ≤ a4Width ∧
    (placeOnA4 (w : ℚ) (h : ℚ)).draw_height ≤ a4Height ∧
    0 ≤ (placeOnA4 (w : ℚ) (h : ℚ)).x_offset ∧
    0 ≤ (placeOnA4 (w : ℚ) (h : ℚ)).y_offset ∧
    (placeOnA4 (w : ℚ) (h : ℚ)).draw_width * (h : ℚ) =
      (placeOnA4 (w : ℚ) (h : ℚ)).draw_height * (w : ℚ) ∧
    (placeOnA4 (w : ℚ) (h : ℚ)).x_offset =
      (a4Width - (placeOnA4 (w : ℚ) (h : ℚ)).draw_width) / 2 ∧
    (placeOnA4 (w : ℚ) (h : ℚ)).y_offset =
      (a4Height - (placeOnA4 (w : ℚ) (h : ℚ)).draw_height) / 2 := by
  have hW : (0 : ℚ) < (w : ℚ) := by exact_mod_cast hw
  have hH : (0 : ℚ) < (h : ℚ) := by exact_mod_cast hh
  have hpw : (0 : ℚ) < a4Width := by norm_num [a4Width]
  have hph : (0 : ℚ) < a4Height := by norm_num [a4Height]
  by_cases hc : (w : ℚ) / (h : ℚ) > a4Width / a4Height
  · have hplace : placeOnA4 (w : ℚ) (h : ℚ) =
        ⟨a4Width, a4Width / ((w : ℚ) / (h : ℚ)),
         (a4Width - a4Width) / 2, (a4Height - a4Width / ((w : ℚ) / (h : ℚ))) / 2⟩ := by
      simp only [placeOnA4]
      rw [if_pos hc]
    have hA : (0 : ℚ) < (w : ℚ) / (h : ℚ) := div_pos hW hH
    have hdh_le : a4Width / ((w : ℚ) / (h : ℚ)) ≤ a4Height := by
      rw [div_le_iff₀ hA]
      calc a4Width = a4Width / a4Height * a4Height := (div_mul_cancel₀ _ (ne_of_gt hph)).symm
        _ ≤ (w : ℚ) / (h : ℚ) * a4Height :=
            mul_le_mul_of_nonneg_right (le_of_lt hc) (le_of_lt hph)
        _ = a4Height * ((w : ℚ) / (h : ℚ)) := mul_comm _ _
    rw [hplace]
    refine ⟨fun _ => ⟨rfl, ?_⟩, fun hcontra => absurd hc hcontra, le_refl _, hdh_le,
      ?_, ?_, ?_, rfl, rfl⟩
    · exact div_div_eq_mul_div a4Width (w : ℚ) (h : ℚ)
    · simp
    · exact div_nonneg (sub_nonneg.mpr hdh_le) (by norm_num)
    · rw [div_div_eq_mul_div, div_mul_cancel₀ _ (ne_of_gt hW)]
  · have hplace : placeOnA4 (w : ℚ) (h : ℚ) =
        ⟨a4Height * ((w : ℚ) / (h : ℚ)), a4Height,
         (a4Width - a4Height * ((w : ℚ) / (h : ℚ))) / 2, (a4Height - a4Height) / 2⟩ := by
      simp only [placeOnA4]
      rw [if_neg hc]
    have hdw_le : a4Height * ((w : ℚ) / (h : ℚ)) ≤ a4Width := by
      have hstep : a4Height * ((w : ℚ) / (h : ℚ)) ≤ a4Height * (a4Width / a4Height) :=
        mul_le_mul_of_nonneg_left (le_of_not_lt hc) (le_of_lt hph)
      have hcancel : a4Height * (a4Width / a4Height) = a4Width := by
        rw [mul_comm, div_mul_cancel₀ _ (ne_of_gt hph)]
      rwa [hcancel] at hstep
    rw [hplace]
    refine ⟨fun hgt => absurd hgt hc, fun _ => ⟨rfl, (mul_div_assoc a4Height (w : ℚ) (h : ℚ)).symm⟩,
      hdw_le, le_refl _, ?_, ?_, ?_, rfl, rfl⟩
    · exact div_nonneg (sub_nonneg.mpr hdw_le) (by norm_num)
    · simp
    · rw [mul_assoc, div_mul_cancel₀ _ (ne_of_gt hH)]

/-- C5 witness: a 2×3 image (taller than A4's aspect) is fit to the page
height, fits within the page width, and is centered horizontally. -/
theorem c5_witness :
    (placeOnA4 ((2 : Nat) : ℚ) ((3 : Nat) : ℚ)).draw_height = a4Height ∧
    (placeOnA4 ((2 : Nat) : ℚ) ((3 : Nat) : ℚ)).draw_width ≤ a4Width ∧
    (placeOnA4 ((2 : Nat) : ℚ) ((3 : Nat) : ℚ)).x_offset =
      (a4Width - (placeOnA4 ((2 : Nat) : ℚ) ((3 : Nat) : ℚ)).draw_width) / 2 := by
  have h := c5_fit_and_center 2 3 (by norm_num) (by norm_num)
  have hng : ¬ (((2 : Nat) : ℚ) / ((3 : Nat) : ℚ) > a4Width / a4Height) := by
    rw [show ((2 : Nat) : ℚ) = 2 by norm_num, show ((3 : Nat) : ℚ) = 3 by norm_num]
    norm_num [a4Width, a4Height]
  exact ⟨(h.2.1 hng).1, h.2.2.1, h.2.2.2.2.2.2.2.1⟩

/-- C7: with no token override and an empty configured token (or no URL
override and an empty configured URL), the upload fails with a
`ValueError` naming the missing configuration before any network request
is issued, and the route maps it to HTTP 400. -/
theorem c7_missing_config_client_error (E : ExternalOps) (net : Net) (uq : String → String)
    (cfg : Settings) (images : List (List Char)) (title : String)
    (tags : Option (List String)) (corr dt : Option String) (cq : Option Nat)
    (purl ptok : Option String)
    (himg : images ≠ [])
    (hmiss : (ptok = none ∧ cfg.paperless_token = "") ∨
             (purl = none ∧ cfg.paperless_url = "")) :
    ∃ msg, (msg = "Paperless URL is not configured" ∨
            msg = "Paperless API token is not configured") ∧
      (∀ pdf_bytes, upload_to_paperless net uq cfg pdf_bytes title tags corr dt purl ptok =
        (Except.error (PyErr.valueError msg), [])) ∧
      (upload_document E net uq cfg images title tags corr dt cq purl ptok).1.status = 400 ∧
      (upload_document E net uq cfg images title tags corr dt cq purl ptok).1.body = JsonVal.str msg ∧
      (upload_document E net uq cfg images title tags corr dt cq purl ptok).2 = [] := by
  have hempty : images.isEmpty = false := by
    cases images with
    | nil => exact absurd rfl himg
    | cons a t => rfl
  by_cases hu : pyOr purl cfg.paperless_url = ""
  · have hserv : ∀ pdfB, upload_to_paperless net uq cfg pdfB title tags corr dt purl ptok =
        (Except.error (PyErr.valueError "Paperless URL is not configured"), []) := by
      intro pdfB
      unfold upload_to_paperless
      rw [if_pos hu]
    have hroute : upload_document E net uq cfg images title tags corr dt cq purl ptok =
        (⟨400, JsonVal.str "Paperless URL is not configured"⟩, []) := by
      unfold upload_document upload_document_body
      simp only [hempty, Bool.false_eq_true, if_false, hserv]
    exact ⟨"Paperless URL is not configured", Or.inl rfl, hserv,
      by rw [hroute], by rw [hroute], by rw [hroute]⟩
  · have htok : pyOr ptok cfg.paperless_token = "" := by
      rcases hmiss with ⟨hp, hc⟩ | ⟨hp, hc⟩
      · rw [hp]
        exact hc
      · exact absurd (by rw [hp]; exact hc) hu
    have hserv : ∀ pdfB, upload_to_paperless net uq cfg pdfB title tags corr dt purl ptok =
        (Except.error (PyErr.valueError "Paperless API token is not configured"), []) := by
      intro pdfB
      unfold upload_to_paperless
      rw [if_neg hu, if_pos htok]
    have hroute : upload_document E net uq cfg images title tags corr dt cq purl ptok =
        (⟨400, JsonVal.str "Paperless API token is not configured"⟩, []) := by
      unfold upload_document upload_document_body
      simp only [hempty, Bool.false_eq_true, if_false, hserv]
    exact ⟨"Paperless API token is not configured", Or.inr rfl, hserv,
      by rw [hroute], by rw [hroute], by rw [hroute]⟩

/-- C7 witness: with the shipped configuration (URL set, token empty)
and no overrides, the upload route answers 400 without any network
request. -/
theorem c7_witness :
    (upload_document extOps₀ netTaskObj id cfgNoToken [['A']] "t"
        none none none none none none).1.status = 400 ∧
    (upload_document extOps₀ netTaskObj id cfgNoToken [['A']] "t"
        none none none none none none).2 = [] := by
  obtain ⟨msg, _, _, hstat, _, hcalls⟩ := c7_missing_config_client_error extOps₀ netTaskObj id
    cfgNoToken [['A']] "t" none none none none none none (by decide) (Or.inl ⟨rfl, rfl⟩)
  exact ⟨hstat, hcalls⟩

/-- C8 counterexample: the claim as stated — every successful result of
`upload_to_paperless` has the `{id: ...}` shape — fails when the server
answers with a structured object lacking an `id` field: that object is
returned unchanged. -/
theorem c8_counterexample :
    ¬ (∀ (net : Net) (uq : String → String) (cfg : Settings) (pdfB : List Nat) (title : String)
         (tags : Option (List String)) (corr dt purl ptok : Option String)
         (v : JsonVal) (calls : List NetCall),
         upload_to_paperless net uq cfg pdfB title tags corr dt purl ptok = (Except.ok v, calls) →
         ∃ x, v = JsonVal.obj [("id", x)]) := by
  intro hclaim
  obtain ⟨x, hx⟩ := hclaim netTaskObj id cfgPaperless [] "t" none none none none none
    (JsonVal.obj [("task", JsonVal.str "abc")])
    (upload_to_paperless netTaskObj id cfgPaperless [] "t" none none none none none).2
    rfl
  simp at hx

/-- C8 (amended): a bare task-identifier string `t` from the server is
normalized to `{id: t}`, while any non-string response is returned
unchanged (so it has the `{id: ...}` shape only when the server response
already does). -/
theorem c8_string_task_id_normalized (net : Net) (uq : String → String) (cfg : Settings)
    (pdfB : List Nat) (title : String) (purl ptok : Option String)
    (hurl : pyOr purl cfg.paperless_url ≠ "")
    (htok : pyOr ptok cfg.paperless_token ≠ "")
    (h2xx : is2xx (net (basicPostCall (pyOr purl cfg.paperless_url)
        (pyOr ptok cfg.paperless_token) title pdfB)).status = true) :
    (∀ t, (net (basicPostCall (pyOr purl cfg.paperless_url)
          (pyOr ptok cfg.paperless_token) title pdfB)).jsonBody = JsonVal.str t →
       upload_to_paperless net uq cfg pdfB title none none none purl ptok =
         (Except.ok (JsonVal.obj [("id", JsonVal.str t)]),
          [basicPostCall (pyOr purl cfg.paperless_url)
            (pyOr ptok cfg.paperless_token) title pdfB])) ∧
    (∀ v, (net (basicPostCall (pyOr purl cfg.paperless_url)
          (pyOr ptok cfg.paperless_token) title pdfB)).jsonBody = v →
       (∀ t, v ≠ JsonVal.str t) →
       upload_to_paperless net uq cfg pdfB title none none none purl ptok =
         (Except.ok v,
          [basicPostCall (pyOr purl cfg.paperless_url)
            (pyOr ptok cfg.paperless_token) title pdfB])) := by
  constructor
  · intro t hresp
    have h2xx' := h2xx
    simp [basicPostCall] at hresp h2xx'
    unfold upload_to_paperless
    rw [if_neg hurl, if_neg htok]
    simp [hresp, h2xx', basicPostCall]
  · intro v hresp hnot
    have h2xx' := h2xx
    simp [basicPostCall] at hresp h2xx'
    unfold upload_to_paperless
    rw [if_neg hurl, if_neg htok]
    cases v with
    | str s => exact absurd rfl (hnot s)
    | null => simp [hresp, h2xx', basicPostCall]
    | boolean b => simp [hresp, h2xx', basicPostCall]
    | num n => simp [hresp, h2xx', basicPostCall]
    | arr l => simp [hresp, h2xx', basicPostCall]
    | obj l => simp [hresp, h2xx', basicPostCall]

/-- C8 witness: a server answering with the bare string task id yields
the normalized `{id: "abc"}` result from a single POST. -/
theorem c8_witness :
    upload_to_paperless netTaskStr id cfgPaperless [] "t" none none none none none =
      (Except.ok (JsonVal.obj [("id", JsonVal.str "abc")]),
       [basicPostCall "http://paperless" "tok" "t" []]) := by
  have h := c8_string_task_id_normalized netTaskStr id cfgPaperless [] "t" none none
    (by decide) (by decide) (by decide)
  exact h.1 "abc" rfl

end DocuScan
